import Mathlib

/-!
Verification of the Restaurant POS system (`src/main.py`).

The program stores its state in four SQLite collections (tables, menu,
orders, sales) and mutates them through a small set of operations
triggered from the UI.  We embed the database state as a Lean structure
and each operation as a pure state transformer, translated directly from
the SQL statements in `src/main.py`.  SQLite `REAL` columns (prices,
totals) are modelled as rationals; `INTEGER PRIMARY KEY AUTOINCREMENT`
columns are modelled with explicit next-id counters on the state.
-/

namespace POS

/-- Status of a restaurant table: the `status` column of `tables`
(`'free'` / `'occupied'`). -/
inductive TableStatus where
  | free
  | occupied
deriving DecidableEq, Repr

/-- Status of an order line: the `status` column of `orders`
(`'pending'` / `'prepared'`). -/
inductive OrderStatus where
  | pending
  | prepared
deriving DecidableEq, Repr

/-- A row of the `tables` collection (`table_no INTEGER UNIQUE`,
`status TEXT DEFAULT 'free'`). -/
structure TableRec where
  table_no : Nat
  status : TableStatus
deriving DecidableEq, Repr

/-- A row of the `menu` collection (`id`, `name`, `price REAL`,
`category`). -/
structure MenuItem where
  id : Nat
  name : String
  price : ℚ
  category : String
deriving DecidableEq, Repr

/-- A row of the `orders` collection (`id`, `table_no`, `item_id`,
`item_name`, `qty`, `price REAL`, `status TEXT DEFAULT 'pending'`,
`timestamp TEXT`). -/
structure OrderLine where
  id : Nat
  table_no : Nat
  item_id : Nat
  item_name : String
  qty : Nat
  price : ℚ
  status : OrderStatus
  timestamp : String
deriving DecidableEq, Repr

/-- A row of the `sales` collection (`id`, `table_no`, `total REAL`,
`date TEXT`, `receipt_file TEXT`). -/
structure Sale where
  id : Nat
  table_no : Nat
  total : ℚ
  date : String
  receipt_file : String
deriving DecidableEq, Repr

/-- The whole database state: the four collections of `init_db`, plus the
autoincrement counters for `orders.id` and `sales.id`. -/
structure DB where
  tables : List TableRec
  menu : List MenuItem
  orders : List OrderLine
  sales : List Sale
  nextOrderId : Nat
  nextSaleId : Nat
deriving DecidableEq, Repr

/-- `set_table_status` (main.py 113-118):
`UPDATE tables SET status=? WHERE table_no=?`. -/
def set_table_status (db : DB) (table_no : Nat) (st : TableStatus) : DB :=
  { db with
    tables := db.tables.map fun t =>
      if t.table_no = table_no then { t with status := st } else t }

/-- `add_order_item` (main.py 128-136): inserts an order row with
status `'pending'` and the current timestamp `ts`, then calls
`set_table_status(table_no, "occupied")`. -/
def add_order_item (db : DB) (table_no item_id : Nat) (item_name : String)
    (qty : Nat) (price : ℚ) (ts : String) : DB :=
  let db1 : DB :=
    { db with
      orders := db.orders ++
        [⟨db.nextOrderId, table_no, item_id, item_name, qty, price,
          OrderStatus.pending, ts⟩],
      nextOrderId := db.nextOrderId + 1 }
  set_table_status db1 table_no TableStatus.occupied

/-- `get_orders_for_table` (main.py 138-144):
`SELECT ... FROM orders WHERE table_no=? ORDER BY id`.  Rows are kept in
insertion (id) order, so the stored order is the query order. -/
def get_orders_for_table (db : DB) (table_no : Nat) : List OrderLine :=
  db.orders.filter fun o => o.table_no == table_no

/-- `mark_order_prepared` (main.py 154-159):
`UPDATE orders SET status='prepared' WHERE id=?`. -/
def mark_order_prepared (db : DB) (order_id : Nat) : DB :=
  { db with
    orders := db.orders.map fun o =>
      if o.id = order_id then { o with status := OrderStatus.prepared } else o }

/-- `delete_orders_for_table` (main.py 161-166):
`DELETE FROM orders WHERE table_no=?`. -/
def delete_orders_for_table (db : DB) (table_no : Nat) : DB :=
  { db with orders := db.orders.filter fun o => !(o.table_no == table_no) }

/-- `complete_bill_and_save` (main.py 168-177): inserts a sales row,
then deletes the table's orders and frees the table. -/
def complete_bill_and_save (db : DB) (table_no : Nat) (total : ℚ)
    (date receipt_file : String) : DB :=
  let db1 : DB :=
    { db with
      sales := db.sales ++ [⟨db.nextSaleId, table_no, total, date, receipt_file⟩],
      nextSaleId := db.nextSaleId + 1 }
  set_table_status (delete_orders_for_table db1 table_no) table_no TableStatus.free

/-- Database effect of `POSApp.remove_selected_order_item`
(main.py 421-425): `DELETE FROM orders WHERE id=?`.  The surrounding
method only re-renders the UI; it does not touch the table status. -/
def remove_selected_order_item (db : DB) (oid : Nat) : DB :=
  { db with orders := db.orders.filter fun o => !(o.id == oid) }

/-- Database effect of `POSApp.free_table` (main.py 466-477), once the
user confirms: `delete_orders_for_table` then
`set_table_status(table, "free")`. -/
def free_table (db : DB) (table_no : Nat) : DB :=
  set_table_status (delete_orders_for_table db table_no) table_no TableStatus.free

/-- `generate_receipt_pdf` (main.py 182-222).  The PDF drawing is pure
formatting; the computational content is the filename, the loop
accumulating `total_amount` over the items, and the tax/grand-total
arithmetic.  The function returns `(filename, grand_total)`.
`invoice_no` stands for `int(datetime.now().timestamp())`. -/
def generate_receipt_pdf (table_no : Nat) (invoice_no : Nat)
    (items : List (String × Nat × ℚ × ℚ)) (subtotal : ℚ)
    (tax_percent : ℚ) : String × ℚ :=
  let filename := "receipts/receipt_table" ++ toString table_no ++ "_" ++
    toString invoice_no ++ ".pdf"
  let total_amount := items.foldl (fun acc it => acc + it.2.2.2) 0
  let tax := subtotal * tax_percent / 100
  let grand_total := subtotal + tax
  (filename, grand_total)

/-- Database effect of `POSApp.print_bill` (main.py 440-464): if the
table has no orders, show an error and change nothing (modelled as
returning the state unchanged with `none`); otherwise build the receipt
items and subtotal, call `generate_receipt_pdf`, then
`complete_bill_and_save`.  Returns the new state together with
`(receipt_file, grand_total)` on success. -/
def print_bill (db : DB) (table_no : Nat) (tax_percent : ℚ)
    (invoice_no : Nat) (date : String) : DB × Option (String × ℚ) :=
  let orders := get_orders_for_table db table_no
  if orders.isEmpty then
    (db, none)
  else
    let items_for_receipt := orders.map fun o =>
      (o.item_name, o.qty, o.price, (o.qty : ℚ) * o.price)
    let subtotal := orders.foldl (fun acc o => acc + (o.qty : ℚ) * o.price) 0
    let res := generate_receipt_pdf table_no invoice_no items_for_receipt
      subtotal tax_percent
    (complete_bill_and_save db table_no res.2 date res.1, some res)

/-- The bill totals `(subtotal, tax, grandTotal)` computed along the
billing path: the subtotal loop of `POSApp.print_bill` (main.py 449-455)
followed by the tax and grand-total lines of `generate_receipt_pdf`
(main.py 211-214). -/
def compute_bill (db : DB) (table_no : Nat) (tax_percent : ℚ) : ℚ × ℚ × ℚ :=
  let subtotal := (get_orders_for_table db table_no).foldl
    (fun acc o => acc + (o.qty : ℚ) * o.price) 0
  let tax := subtotal * tax_percent / 100
  (subtotal, tax, subtotal + tax)

/-- The default tables seeded by `init_db` (main.py 72-75):
`for t in range(1, 9): INSERT INTO tables (table_no, status) VALUES (t, "free")`. -/
def default_tables : List TableRec :=
  (List.range' 1 8).map fun t => ⟨t, TableStatus.free⟩

/-- The sample menu seeded by `init_db` (main.py 81-92), with the
autoincrement ids 1..9. -/
def sample_menu : List MenuItem :=
  [⟨1, "Margherita Pizza", 8.50, "Pizza"⟩,
   ⟨2, "Farmhouse Pizza", 9.50, "Pizza"⟩,
   ⟨3, "Veg Burger", 5.00, "Burger"⟩,
   ⟨4, "Chicken Burger", 6.50, "Burger"⟩,
   ⟨5, "Pasta Alfredo", 7.50, "Pasta"⟩,
   ⟨6, "Coke", 1.50, "Beverage"⟩,
   ⟨7, "Orange Juice", 2.00, "Beverage"⟩,
   ⟨8, "French Fries", 3.00, "Sides"⟩,
   ⟨9, "Caesar Salad", 4.50, "Salad"⟩]

/-- The table-seeding part of `init_db` (main.py 70-75): seed the eight
default tables only when `SELECT COUNT(*) FROM tables` is 0. -/
def init_tables (tables : List TableRec) : List TableRec :=
  if tables.length = 0 then default_tables else tables

/-- The menu-seeding part of `init_db` (main.py 78-93): seed the sample
menu only when `SELECT COUNT(*) FROM menu` is 0. -/
def init_menu (menu : List MenuItem) : List MenuItem :=
  if menu.length = 0 then sample_menu else menu

/-- `init_db` (main.py 28-95) on an existing state: create the schema
(a no-op on the model) and run the two conditional seedings. -/
def init_db (db : DB) : DB :=
  { db with tables := init_tables db.tables, menu := init_menu db.menu }

/-- The state of a fresh installation: `init_db` applied to the empty
database (empty file at `database/pos.db`, autoincrement counters at 1). -/
def initialDB : DB :=
  init_db { tables := [], menu := [], orders := [], sales := [],
            nextOrderId := 1, nextSaleId := 1 }

/-- Number of order lines currently stored for a table. -/
def order_count (db : DB) (table_no : Nat) : Nat :=
  (get_orders_for_table db table_no).length

/-- The occupancy invariant of spec §3: a table is `occupied` exactly
when it has at least one order line. -/
def table_invariant (db : DB) : Prop :=
  ∀ t ∈ db.tables, t.status = TableStatus.occupied ↔ 0 < order_count db t.table_no

instance (db : DB) : Decidable (table_invariant db) := by
  unfold table_invariant
  exact List.decidableBAll _ _

/-- One user-triggered database mutation, as listed in spec §4.1:
AddItem, RemoveItem, MarkPrepared, CompleteBill, FreeTable. -/
inductive Step : DB → DB → Prop where
  | addItem (db : DB) (table_no item_id : Nat) (item_name : String)
      (qty : Nat) (price : ℚ) (ts : String) :
      Step db (add_order_item db table_no item_id item_name qty price ts)
  | removeItem (db : DB) (oid : Nat) :
      Step db (remove_selected_order_item db oid)
  | markPrepared (db : DB) (oid : Nat) :
      Step db (mark_order_prepared db oid)
  | completeBill (db : DB) (table_no : Nat) (total : ℚ) (date rf : String) :
      Step db (complete_bill_and_save db table_no total date rf)
  | freeTable (db : DB) (table_no : Nat) :
      Step db (free_table db table_no)

/-- Like `Step` but without RemoveItem (the operation the spec singles
out as breaking the occupancy invariant). -/
inductive StepCore : DB → DB → Prop where
  | addItem (db : DB) (table_no item_id : Nat) (item_name : String)
      (qty : Nat) (price : ℚ) (ts : String) :
      StepCore db (add_order_item db table_no item_id item_name qty price ts)
  | markPrepared (db : DB) (oid : Nat) :
      StepCore db (mark_order_prepared db oid)
  | completeBill (db : DB) (table_no : Nat) (total : ℚ) (date rf : String) :
      StepCore db (complete_bill_and_save db table_no total date rf)
  | freeTable (db : DB) (table_no : Nat) :
      StepCore db (free_table db table_no)

/-- States reachable from a fresh installation by the §4.1 operations. -/
inductive Reachable : DB → Prop where
  | init : Reachable initialDB
  | step {db db' : DB} : Reachable db → Step db db' → Reachable db'

/-- States reachable from a fresh installation without RemoveItem. -/
inductive ReachableCore : DB → Prop where
  | init : ReachableCore initialDB
  | step {db db' : DB} : ReachableCore db → StepCore db db' → ReachableCore db'

/-! ### Helper lemmas about filters and the individual operations -/

theorem filter_not_filter {α : Type} (p : α → Bool) (l : List α) :
    (l.filter fun a => !(p a)).filter p = [] := by
  induction l with
  | nil => rfl
  | cons a l ih => cases h : p a <;> simp [List.filter_cons, h, ih]

theorem filter_comm_of_imp {α : Type} (p q : α → Bool) (l : List α)
    (h : ∀ a, p a = true → q a = true) : (l.filter q).filter p = l.filter p := by
  induction l with
  | nil => rfl
  | cons a l ih =>
    cases hq : q a with
    | true => cases hp : p a <;> simp [List.filter_cons, hq, hp, ih]
    | false =>
      have hp : p a = false := by
        cases hpa : p a
        · rfl
        · rw [h a hpa] at hq; exact hq
      simp [List.filter_cons, hq, hp, ih]

theorem length_filter_map_of_pred {α : Type} (f : α → α) (p : α → Bool) (l : List α)
    (h : ∀ a, p (f a) = p a) :
    ((l.map f).filter p).length = (l.filter p).length := by
  induction l with
  | nil => rfl
  | cons a l ih =>
    simp only [List.map_cons, List.filter_cons, h a]
    cases ha : p a <;> simp [ih]

theorem foldl_add_eq_sum (f : OrderLine → ℚ) (l : List OrderLine) (a : ℚ) :
    l.foldl (fun acc o => acc + f o) a = a + (l.map f).sum := by
  induction l generalizing a with
  | nil => simp
  | cons x l ih => simp only [List.foldl_cons, List.map_cons, List.sum_cons, ih, add_assoc]

theorem set_table_status_sets (db : DB) (tn : Nat) (st : TableStatus) :
    ∀ t ∈ (set_table_status db tn st).tables, t.table_no = tn → t.status = st := by
  intro t ht htn
  simp only [set_table_status, List.mem_map] at ht
  obtain ⟨u, hu, rfl⟩ := ht
  by_cases hc : u.table_no = tn
  · simp [hc]
  · rw [if_neg hc] at htn ⊢
    exact absurd htn hc

theorem get_orders_for_table_add_self (db : DB) (tn item_id : Nat) (nm : String)
    (qty : Nat) (pr : ℚ) (ts : String) :
    get_orders_for_table (add_order_item db tn item_id nm qty pr ts) tn =
      get_orders_for_table db tn ++
        [⟨db.nextOrderId, tn, item_id, nm, qty, pr, OrderStatus.pending, ts⟩] := by
  simp [get_orders_for_table, add_order_item, set_table_status, List.filter_append]

theorem get_orders_for_table_add_ne (db : DB) (tn item_id : Nat) (nm : String)
    (qty : Nat) (pr : ℚ) (ts : String) (tn' : Nat) (h : tn' ≠ tn) :
    get_orders_for_table (add_order_item db tn item_id nm qty pr ts) tn' =
      get_orders_for_table db tn' := by
  simp only [get_orders_for_table, add_order_item, set_table_status, List.filter_append]
  have : tn ≠ tn' := fun hc => h hc.symm
  simp [this]

theorem order_count_add_self (db : DB) (tn item_id : Nat) (nm : String)
    (qty : Nat) (pr : ℚ) (ts : String) :
    order_count (add_order_item db tn item_id nm qty pr ts) tn =
      order_count db tn + 1 := by
  simp [order_count, get_orders_for_table_add_self]

theorem order_count_add_ne (db : DB) (tn item_id : Nat) (nm : String)
    (qty : Nat) (pr : ℚ) (ts : String) (tn' : Nat) (h : tn' ≠ tn) :
    order_count (add_order_item db tn item_id nm qty pr ts) tn' =
      order_count db tn' := by
  simp [order_count, get_orders_for_table_add_ne db tn item_id nm qty pr ts tn' h]

theorem get_orders_for_table_free_self (db : DB) (tn : Nat) :
    get_orders_for_table (free_table db tn) tn = [] := by
  simp only [get_orders_for_table, free_table, set_table_status, delete_orders_for_table]
  exact filter_not_filter _ db.orders

theorem get_orders_for_table_free_ne (db : DB) (tn tn' : Nat) (h : tn' ≠ tn) :
    get_orders_for_table (free_table db tn) tn' = get_orders_for_table db tn' := by
  simp only [get_orders_for_table, free_table, set_table_status, delete_orders_for_table]
  apply filter_comm_of_imp
  intro a ha
  have ha' : a.table_no = tn' := by simpa using ha
  simp [ha', h]

theorem order_count_mark (db : DB) (oid tn : Nat) :
    order_count (mark_order_prepared db oid) tn = order_count db tn := by
  apply length_filter_map_of_pred
  intro a
  by_cases h : a.id = oid <;> simp [h]

theorem order_count_free_self (db : DB) (tn : Nat) :
    order_count (free_table db tn) tn = 0 := by
  simp [order_count, get_orders_for_table_free_self]

theorem order_count_free_ne (db : DB) (tn tn' : Nat) (h : tn' ≠ tn) :
    order_count (free_table db tn) tn' = order_count db tn' := by
  simp [order_count, get_orders_for_table_free_ne db tn tn' h]

/-! ### Preservation of the occupancy invariant by the individual operations -/

theorem table_invariant_add (db : DB) (tn item_id : Nat) (nm : String)
    (qty : Nat) (pr : ℚ) (ts : String) (h : table_invariant db) :
    table_invariant (add_order_item db tn item_id nm qty pr ts) := by
  intro t ht
  have htab : (add_order_item db tn item_id nm qty pr ts).tables =
      db.tables.map fun u =>
        if u.table_no = tn then { u with status := TableStatus.occupied } else u := rfl
  rw [htab, List.mem_map] at ht
  obtain ⟨u, hu, rfl⟩ := ht
  by_cases hc : u.table_no = tn
  · rw [if_pos hc]
    refine ⟨fun _ => ?_, fun _ => rfl⟩
    show 0 < order_count (add_order_item db tn item_id nm qty pr ts) u.table_no
    rw [hc, order_count_add_self]
    exact Nat.succ_pos _
  · rw [if_neg hc]
    show u.status = TableStatus.occupied ↔
      0 < order_count (add_order_item db tn item_id nm qty pr ts) u.table_no
    rw [order_count_add_ne db tn item_id nm qty pr ts u.table_no hc]
    exact h u hu

theorem table_invariant_mark (db : DB) (oid : Nat) (h : table_invariant db) :
    table_invariant (mark_order_prepared db oid) := by
  intro t ht
  have htab : (mark_order_prepared db oid).tables = db.tables := rfl
  rw [htab] at ht
  show t.status = TableStatus.occupied ↔
    0 < order_count (mark_order_prepared db oid) t.table_no
  rw [order_count_mark]
  exact h t ht

theorem table_invariant_free (db : DB) (tn : Nat) (h : table_invariant db) :
    table_invariant (free_table db tn) := by
  intro t ht
  have htab : (free_table db tn).tables =
      db.tables.map fun u =>
        if u.table_no = tn then { u with status := TableStatus.free } else u := rfl
  rw [htab, List.mem_map] at ht
  obtain ⟨u, hu, rfl⟩ := ht
  by_cases hc : u.table_no = tn
  · rw [if_pos hc]
    constructor
    · intro habs
      simp at habs
    · intro hcount
      exfalso
      have h0 : order_count (free_table db tn) tn = 0 := order_count_free_self db tn
      have hcount' : 0 < order_count (free_table db tn) u.table_no := hcount
      rw [hc, h0] at hcount'
      exact Nat.lt_irrefl 0 hcount'
  · rw [if_neg hc]
    show u.status = TableStatus.occupied ↔ 0 < order_count (free_table db tn) u.table_no
    rw [order_count_free_ne db tn u.table_no hc]
    exact h u hu

theorem table_invariant_step {db db' : DB} (hs : StepCore db db')
    (h : table_invariant db) : table_invariant db' := by
  cases hs with
  | addItem tn item_id nm qty pr ts =>
    exact table_invariant_add db tn item_id nm qty pr ts h
  | markPrepared oid =>
    exact table_invariant_mark db oid h
  | completeBill tn total d rf =>
    exact table_invariant_free
      { db with sales := db.sales ++ [⟨db.nextSaleId, tn, total, d, rf⟩],
                nextSaleId := db.nextSaleId + 1 } tn h
  | freeTable tn =>
    exact table_invariant_free db tn h

/-! ### Claim theorems -/

/-- C1 (counterexample to the claim as stated): there is a database state
reachable by the listed operations (AddItem, RemoveItem, MarkPrepared,
CompleteBill, FreeTable) from a fresh installation in which the occupancy
invariant fails: after AddItem on table 1 followed by RemoveItem of that
line, table 1 still has status `occupied` but zero order lines, because
`POSApp.remove_selected_order_item` never re-derives the table status. -/
theorem C1_invariant_counterexample :
    ∃ db : DB, Reachable db ∧ ¬ table_invariant db :=
  ⟨remove_selected_order_item
      (add_order_item initialDB 1 6 "Coke" 2 (3 / 2) "t0") 1,
   Reachable.step
     (Reachable.step Reachable.init (Step.addItem initialDB 1 6 "Coke" 2 (3 / 2) "t0"))
     (Step.removeItem (add_order_item initialDB 1 6 "Coke" 2 (3 / 2) "t0") 1),
   by decide⟩

/-- C1 (amended): in every database state reachable from a fresh
installation by AddItem, MarkPrepared, CompleteBill and FreeTable —
i.e. by all the listed operations except RemoveItem — every table has
status `occupied` iff its order-line count is positive (so `occupied`
tables have at least one OrderLine and `free` tables have none). -/
theorem C1_occupancy_invariant (db : DB) (h : ReachableCore db) :
    table_invariant db := by
  induction h with
  | init => decide
  | step _ hs ih => exact table_invariant_step hs ih

/-- C1 witness: the amended invariant theorem applied to a concrete
reachable state (one AddItem followed by CompleteBill on table 2). -/
theorem C1_occupancy_invariant_witness :
    table_invariant (complete_bill_and_save
      (add_order_item initialDB 2 3 "Veg Burger" 1 5 "t1") 2 (21 / 4) "d" "r") :=
  C1_occupancy_invariant _
    (ReachableCore.step
      (ReachableCore.step ReachableCore.init
        (StepCore.addItem initialDB 2 3 "Veg Burger" 1 5 "t1"))
      (StepCore.completeBill (add_order_item initialDB 2 3 "Veg Burger" 1 5 "t1")
        2 (21 / 4) "d" "r"))

/-- C3: `complete_bill_and_save(table, total, receiptRef)` appends exactly
one Sale record (with the next sale id, the given table, total, date and
receipt reference), deletes exactly the OrderLines whose `table_no`
equals that table, sets the table's status to `free`, and afterwards the
table's order-line count is 0 regardless of how many lines it had. -/
theorem C3_complete_bill (db : DB) (tn : Nat) (total : ℚ) (d rf : String) :
    (complete_bill_and_save db tn total d rf).sales =
        db.sales ++ [⟨db.nextSaleId, tn, total, d, rf⟩]
    ∧ (complete_bill_and_save db tn total d rf).orders =
        db.orders.filter (fun o => !(o.table_no == tn))
    ∧ (∀ t ∈ (complete_bill_and_save db tn total d rf).tables,
        t.table_no = tn → t.status = TableStatus.free)
    ∧ order_count (complete_bill_and_save db tn total d rf) tn = 0 := by
  refine ⟨rfl, rfl, ?_, ?_⟩
  · exact set_table_status_sets _ tn TableStatus.free
  · show ((db.orders.filter fun o => !(o.table_no == tn)).filter
      fun o => o.table_no == tn).length = 0
    rw [filter_not_filter]
    rfl

/-- C3 witness: completing a bill on table 1 of a fresh installation,
after two items were added, leaves zero order lines on table 1. -/
theorem C3_complete_bill_witness :
    order_count (complete_bill_and_save
      (add_order_item (add_order_item initialDB 1 6 "Coke" 2 (3 / 2) "t0")
        1 8 "French Fries" 1 3 "t1") 1 (63 / 10) "d" "r") 1 = 0 :=
  (C3_complete_bill
    (add_order_item (add_order_item initialDB 1 6 "Coke" 2 (3 / 2) "t0")
      1 8 "French Fries" 1 3 "t1") 1 (63 / 10) "d" "r").2.2.2

/-- C4: for qty ≥ 1, `add_order_item(table, item, qty)` appends one new
OrderLine carrying status `pending` and the current timestamp, and sets
the table's status to `occupied`; a second add of the same item on the
same table appends a second, separate line (with a fresh id) instead of
merging quantities. -/
theorem C4_add_item (db : DB) (tn item_id qty : Nat) (nm ts : String) (pr : ℚ)
    (hq : 1 ≤ qty) :
    (add_order_item db tn item_id nm qty pr ts).orders =
        db.orders ++ [⟨db.nextOrderId, tn, item_id, nm, qty, pr, OrderStatus.pending, ts⟩]
    ∧ (∀ t ∈ (add_order_item db tn item_id nm qty pr ts).tables,
        t.table_no = tn → t.status = TableStatus.occupied)
    ∧ ∀ (qty' : Nat) (ts' : String),
        (add_order_item (add_order_item db tn item_id nm qty pr ts)
            tn item_id nm qty' pr ts').orders =
          db.orders ++
            [⟨db.nextOrderId, tn, item_id, nm, qty, pr, OrderStatus.pending, ts⟩,
             ⟨db.nextOrderId + 1, tn, item_id, nm, qty', pr, OrderStatus.pending, ts'⟩] := by
  refine ⟨rfl, ?_, ?_⟩
  · exact set_table_status_sets _ tn TableStatus.occupied
  · intro qty' ts'
    show (db.orders ++ [_]) ++ [_] = _
    rw [List.append_assoc]
    rfl

/-- C4 witness: adding 2 Cokes to table 1 of a fresh installation twice
produces two separate pending lines with ids 1 and 2. -/
theorem C4_add_item_witness :
    (add_order_item (add_order_item initialDB 1 6 "Coke" 2 (3 / 2) "t0")
        1 6 "Coke" 2 (3 / 2) "t1").orders =
      initialDB.orders ++
        [⟨1, 1, 6, "Coke", 2, 3 / 2, OrderStatus.pending, "t0"⟩,
         ⟨2, 1, 6, "Coke", 2, 3 / 2, OrderStatus.pending, "t1"⟩] :=
  (C4_add_item initialDB 1 6 2 "Coke" "t0" (3 / 2) (by decide)).2.2 2 "t1"

/-- C5: `free_table(table)` deletes exactly the OrderLines of that table
and sets its status to `free`, while the sales collection is unchanged
(no Sale is created or modified) and the order lines and table records of
other tables are untouched. -/
theorem C5_free_table (db : DB) (tn : Nat) :
    (free_table db tn).sales = db.sales
    ∧ (free_table db tn).orders = db.orders.filter (fun o => !(o.table_no == tn))
    ∧ (∀ t ∈ (free_table db tn).tables, t.table_no = tn → t.status = TableStatus.free)
    ∧ (∀ tn', tn' ≠ tn →
        get_orders_for_table (free_table db tn) tn' = get_orders_for_table db tn')
    ∧ (∀ t ∈ db.tables, t.table_no ≠ tn → t ∈ (free_table db tn).tables) := by
  refine ⟨rfl, rfl, set_table_status_sets _ tn TableStatus.free, ?_, ?_⟩
  · intro tn' h
    exact get_orders_for_table_free_ne db tn tn' h
  · intro t ht hne
    have := List.mem_map_of_mem
      (fun u : TableRec =>
        if u.table_no = tn then { u with status := TableStatus.free } else u) ht
    simpa [free_table, set_table_status, delete_orders_for_table, hne] using this

/-- C5 witness: freeing table 1 after an unbilled add leaves the sales
collection of the fresh installation unchanged. -/
theorem C5_free_table_witness :
    (free_table (add_order_item initialDB 1 6 "Coke" 2 (3 / 2) "t0") 1).sales =
      (add_order_item initialDB 1 6 "Coke" 2 (3 / 2) "t0").sales :=
  (C5_free_table (add_order_item initialDB 1 6 "Coke" 2 (3 / 2) "t0") 1).1

/-- C6: billing a table with zero order lines is rejected: `print_bill`
returns the state unchanged together with `none` (no receipt, no sale,
no status change). -/
theorem C6_empty_bill (db : DB) (tn : Nat) (p : ℚ) (invoice_no : Nat) (d : String)
    (h : order_count db tn = 0) :
    print_bill db tn p invoice_no d = (db, none) := by
  have h0 : get_orders_for_table db tn = [] := List.length_eq_zero.mp h
  simp [print_bill, h0]

/-- C6 witness: billing table 5 of a fresh installation (no orders)
changes nothing and produces no receipt. -/
theorem C6_empty_bill_witness :
    print_bill initialDB 5 5 1700000000 "d" = (initialDB, none) :=
  C6_empty_bill initialDB 5 5 1700000000 "d" (by decide)

/-- C7: `mark_order_prepared(orderLineId)` sets the status of every line
whose id matches to `prepared` (whatever its previous status, and
changing nothing else on the line), keeps non-matching lines unchanged,
and when no line matches the whole state is unchanged (a no-op rather
than a fault). -/
theorem C7_mark_prepared (db : DB) (oid : Nat) :
    (∀ o ∈ db.orders, o.id = oid →
        { o with status := OrderStatus.prepared } ∈ (mark_order_prepared db oid).orders)
    ∧ (∀ o ∈ db.orders, o.id ≠ oid → o ∈ (mark_order_prepared db oid).orders)
    ∧ ((∀ o ∈ db.orders, o.id ≠ oid) → mark_order_prepared db oid = db) := by
  refine ⟨?_, ?_, ?_⟩
  · intro o ho hid
    have := List.mem_map_of_mem
      (fun u : OrderLine =>
        if u.id = oid then { u with status := OrderStatus.prepared } else u) ho
    simpa [mark_order_prepared, hid] using this
  · intro o ho hid
    have := List.mem_map_of_mem
      (fun u : OrderLine =>
        if u.id = oid then { u with status := OrderStatus.prepared } else u) ho
    simpa [mark_order_prepared, hid] using this
  · intro hall
    show ({ db with orders := _ } : DB) = db
    have horders : (db.orders.map fun u =>
        if u.id = oid then { u with status := OrderStatus.prepared } else u) =
        db.orders := by
      conv_rhs => rw [← List.map_id db.orders]
      apply List.map_congr_left
      intro o ho
      rw [if_neg (hall o ho)]
      rfl
    rw [horders]

/-- C7 witness: marking the nonexistent order-line id 7 prepared on a
fresh installation (which has no order lines at all) is a no-op. -/
theorem C7_mark_prepared_witness :
    mark_order_prepared initialDB 7 = initialDB :=
  (C7_mark_prepared initialDB 7).2.2 (by decide)

/-- C10: the grand total returned by `generate_receipt_pdf` depends only
on the `subtotal` and `tax_percent` arguments: any two calls with the
same subtotal and tax percent return the same grand total, whatever the
table numbers, invoice numbers or item lists (the `total_amount`
accumulated from the items is never used in the returned value). -/
theorem C10_receipt_grand_total_ignores_items (t1 t2 inv1 inv2 : Nat)
    (items1 items2 : List (String × Nat × ℚ × ℚ)) (s p : ℚ) :
    (generate_receipt_pdf t1 inv1 items1 s p).2 =
      (generate_receipt_pdf t2 inv2 items2 s p).2 := rfl

/-- C2: on a table with at least one order line, the billing path
computes subtotal = Σ(qty×price) over the table's lines,
tax = subtotal×taxPercent/100 and grandTotal = subtotal+tax, and
`print_bill` actually returns that grand total; in particular, a single
AddItem(table, item, qty) on a table with no lines makes the grand total
(qty×price)×(1+taxPercent/100). -/
theorem C2_bill_totals (db : DB) (tn invoice_no : Nat) (p : ℚ) (d : String)
    (db0 : DB) (tn0 item_id qty : Nat) (nm ts : String) (pr : ℚ)
    (hne : get_orders_for_table db tn ≠ [])
    (h0 : get_orders_for_table db0 tn0 = []) :
    (compute_bill db tn p).1 =
        ((get_orders_for_table db tn).map fun o => (o.qty : ℚ) * o.price).sum
    ∧ (compute_bill db tn p).2.1 = (compute_bill db tn p).1 * p / 100
    ∧ (compute_bill db tn p).2.2 = (compute_bill db tn p).1 + (compute_bill db tn p).2.1
    ∧ ((print_bill db tn p invoice_no d).2).map Prod.snd =
        some (compute_bill db tn p).2.2
    ∧ (compute_bill (add_order_item db0 tn0 item_id nm qty pr ts) tn0 p).2.2 =
        ((qty : ℚ) * pr) * (1 + p / 100) := by
  refine ⟨?_, rfl, rfl, ?_, ?_⟩
  · have h1 : (get_orders_for_table db tn).foldl
        (fun acc o => acc + (o.qty : ℚ) * o.price) 0 =
        0 + ((get_orders_for_table db tn).map fun o => (o.qty : ℚ) * o.price).sum :=
      foldl_add_eq_sum (fun o => (o.qty : ℚ) * o.price) _ 0
    rw [zero_add] at h1
    exact h1
  · have hfalse : (get_orders_for_table db tn).isEmpty = false := by
      cases hh : (get_orders_for_table db tn).isEmpty
      · rfl
      · exact absurd (List.isEmpty_iff.mp hh) hne
    simp only [print_bill, hfalse, Bool.false_eq_true, if_false]
    rfl
  · have hadd := get_orders_for_table_add_self db0 tn0 item_id nm qty pr ts
    rw [h0, List.nil_append] at hadd
    simp only [compute_bill, hadd, List.foldl_cons, List.foldl_nil]
    ring

/-- C2 witness: the spec §8 scenario — two Cokes at 1.50 on the empty
table 1 with 5% tax give grand total 3×1.05 = 3.15. -/
theorem C2_bill_totals_witness :
    (compute_bill (add_order_item initialDB 1 6 "Coke" 2 (3 / 2) "t0") 1 5).2.2 =
      ((2 : ℚ) * (3 / 2)) * (1 + 5 / 100) :=
  (C2_bill_totals (add_order_item initialDB 1 6 "Coke" 2 (3 / 2) "t0") 1 1700000000 5 "d"
    initialDB 1 6 2 "Coke" "t0" (3 / 2) (by decide) (by decide)).2.2.2.2

/-- C8: the sales collection is append-only: every operation of the
system either leaves it unchanged or appends a single record;
`complete_bill_and_save` appends exactly one Sale per billing action, and
every Sale existing before a step still exists, unmodified, after it. -/
theorem C8_sales_append_only {db db' : DB} (h : Step db db') :
    (db'.sales = db.sales ∨ ∃ s : Sale, db'.sales = db.sales ++ [s])
    ∧ (∀ s ∈ db.sales, s ∈ db'.sales)
    ∧ ∀ (tn : Nat) (total : ℚ) (d rf : String),
        (complete_bill_and_save db tn total d rf).sales =
          db.sales ++ [⟨db.nextSaleId, tn, total, d, rf⟩] := by
  cases h with
  | addItem tn item_id nm qty pr ts =>
    exact ⟨Or.inl rfl, fun s hs => hs, fun tn total d rf => rfl⟩
  | removeItem oid =>
    exact ⟨Or.inl rfl, fun s hs => hs, fun tn total d rf => rfl⟩
  | markPrepared oid =>
    exact ⟨Or.inl rfl, fun s hs => hs, fun tn total d rf => rfl⟩
  | freeTable tn =>
    exact ⟨Or.inl rfl, fun s hs => hs, fun tn total d rf => rfl⟩
  | completeBill tn total d rf =>
    exact ⟨Or.inr ⟨⟨db.nextSaleId, tn, total, d, rf⟩, rfl⟩,
      fun s hs => List.mem_append_left _ hs,
      fun tn total d rf => rfl⟩

/-- C8 witness: the append-only property applied to a concrete
MarkPrepared step on the fresh installation. -/
theorem C8_sales_append_only_witness :
    (mark_order_prepared initialDB 3).sales = initialDB.sales ∨
      ∃ s : Sale, (mark_order_prepared initialDB 3).sales = initialDB.sales ++ [s] :=
  (C8_sales_append_only (Step.markPrepared initialDB 3)).1

/-- C9: if the tables collection is empty at startup it is seeded with
exactly 8 tables numbered 1..8, all `free`; if the menu collection is
empty it is seeded with exactly 9 items whose categories are Pizza,
Burger, Pasta, Beverage, Sides and Salad; non-empty collections are left
unchanged. -/
theorem C9_seeding (tables : List TableRec) (menu : List MenuItem)
    (ht : tables ≠ []) (hm : menu ≠ []) :
    (init_tables []).length = 8
    ∧ (init_tables []).map (fun t => t.table_no) = [1, 2, 3, 4, 5, 6, 7, 8]
    ∧ (∀ t ∈ init_tables [], t.status = TableStatus.free)
    ∧ (init_menu []).length = 9
    ∧ ((init_menu []).map (fun m => m.category)).dedup =
        ["Pizza", "Burger", "Pasta", "Beverage", "Sides", "Salad"]
    ∧ init_tables tables = tables
    ∧ init_menu menu = menu := by
  refine ⟨by decide, by decide, by decide, by decide, by decide, ?_, ?_⟩
  · unfold init_tables
    rw [if_neg fun hl => ht (List.length_eq_zero.mp hl)]
  · unfold init_menu
    rw [if_neg fun hl => hm (List.length_eq_zero.mp hl)]

/-- C9 witness: running the seeding again on the already-seeded
collections changes nothing. -/
theorem C9_seeding_witness : init_tables default_tables = default_tables :=
  (C9_seeding default_tables sample_menu (by decide) (by decide)).2.2.2.2.2.1

end POS
